import Mathlib

/-!
Shallow embedding of the license-server core (kiosk license lifecycle).

Sources embedded here:
- the `LicenseDatabase` store operations (`getLicenseByKey`, `activateLicense`,
  `updateValidation`, `revokeLicense`, `createLicense`, `logValidation`);
- the HTTP route handlers for `/generate`, `/activate`, `/validate`,
  `/:licenseKey/revoke`;
- the signing helpers `signLicense` / `verifyLicenseSignature`.

Timestamps are modelled as `Nat` (ISO-8601 strings compare consistently with
their numeric instants). SQL rows become a Lean `structure`; nullable columns
become `Option`. The database is a `Store` value threaded explicitly through
each handler; each SQL statement of the source is one atomic step on it.
-/

namespace LicenseServer

/-- A row of the `licenses` table. -/
structure License where
  license_key : String
  device_id_hash : Option String
  kiosk_name : String
  location_restaurant : Option String
  location_country : Option String
  location_region : Option String
  status : String
  issued_at : Nat
  expires_at : Nat
  activated_at : Option Nat
  last_validated_at : Option Nat
  revoked_at : Option Nat
  revoke_reason : Option String
  updated_at : Nat
  deriving Repr, DecidableEq

/-- A row of the `validation_logs` audit table. -/
structure ValidationLog where
  license_key : String
  device_id_hash : String
  validation_type : String
  success : Bool
  error_message : Option String
  deriving Repr, DecidableEq

/-- The database state the license routes touch. -/
structure Store where
  licenses : List License
  validation_logs : List ValidationLog
  deriving Repr, DecidableEq

/-- The query `SELECT * FROM licenses WHERE license_key = ?` (first row). -/
def getLicenseByKey (s : Store) (k : String) : Option License :=
  s.licenses.find? fun l => l.license_key == k

/-- The update `UPDATE licenses SET device_id_hash = ?, status = 'active', activated_at = ?,
last_validated_at = ?, updated_at = ? WHERE license_key = ?`.
Note: the update in the source is conditioned on the key only, never on `status`. -/
def activateLicense (s : Store) (k dh : String) (now : Nat) : Store :=
  { s with licenses := s.licenses.map fun l =>
      if l.license_key == k then
        { l with device_id_hash := some dh, status := "active",
                 activated_at := some now, last_validated_at := some now,
                 updated_at := now }
      else l }

/-- The update `UPDATE licenses SET last_validated_at = ?, updated_at = ? WHERE license_key = ?`. -/
def updateValidation (s : Store) (k : String) (now : Nat) : Store :=
  { s with licenses := s.licenses.map fun l =>
      if l.license_key == k then
        { l with last_validated_at := some now, updated_at := now }
      else l }

/-- The update `UPDATE licenses SET status = 'revoked', revoked_at = ?, revoke_reason = ?,
updated_at = ? WHERE license_key = ?`. Unconditional on the current status. -/
def revokeLicense (s : Store) (k reason : String) (now : Nat) : Store :=
  { s with licenses := s.licenses.map fun l =>
      if l.license_key == k then
        { l with status := "revoked", revoked_at := some now,
                 revoke_reason := some reason, updated_at := now }
      else l }

/-- The insert `INSERT INTO validation_logs ...` (append-only). -/
def logValidation (s : Store) (e : ValidationLog) : Store :=
  { s with validation_logs := s.validation_logs ++ [e] }

/-- The insert `INSERT INTO licenses (... status ...) VALUES (..., 'pending', ...)`.
The `license_key` column is `UNIQUE NOT NULL`; a colliding insert raises,
modelled as `none`. -/
def createLicense (s : Store) (licenseKey kioskName : String)
    (restaurant country region : Option String) (issuedAt expiresAt : Nat) :
    Option Store :=
  if s.licenses.any (fun x => x.license_key == licenseKey) then none
  else some { s with licenses := s.licenses ++
    [{ license_key := licenseKey, device_id_hash := none,
       kiosk_name := kioskName, location_restaurant := restaurant,
       location_country := country, location_region := region,
       status := "pending", issued_at := issuedAt, expires_at := expiresAt,
       activated_at := none, last_validated_at := none, revoked_at := none,
       revoke_reason := none, updated_at := issuedAt }] }

/-- JavaScript truthiness of a nullable string column
(`null` and `''` are falsy). -/
def truthyStr : Option String → Bool
  | some s => s != ""
  | none => false

/-- The location object embedded in a license response. -/
structure LocationInfo where
  restaurant : Option String
  country : Option String
  region : Option String
  deriving Repr, DecidableEq

/-- The `licenseResponse` object the activate route signs and returns.
`location` is `Option` because one of the two code paths omits the field. -/
structure SignedAssertionData where
  licenseKey : String
  deviceId : String
  kioskName : String
  location : Option LocationInfo
  activatedAt : Option Nat
  expiresAt : Nat
  lastValidated : Option Nat
  graceExpiresAt : Option Nat
  deriving Repr, DecidableEq

/-- The constant `90 * 24 * 60 * 60 * 1000`, the grace window added to the last validation. -/
def gracePeriodMs : Nat := 90 * 24 * 60 * 60 * 1000

/-- The `licenseResponse` built on a first (pending → active) activation:
includes the `location` object and stamps `activatedAt`/`lastValidated` with
the current time. -/
def freshActivationResponse (l : License) (deviceHash : String) (now : Nat) :
    SignedAssertionData :=
  { licenseKey := l.license_key, deviceId := deviceHash,
    kioskName := l.kiosk_name,
    location := some ⟨l.location_restaurant, l.location_country,
                      l.location_region⟩,
    activatedAt := some now, expiresAt := l.expires_at,
    lastValidated := some now, graceExpiresAt := some (now + gracePeriodMs) }

/-- The `licenseResponse` built on the idempotent same-device re-activation:
copies the stored timestamps and has no `location` field. -/
def reActivationResponse (l : License) (deviceHash : String) :
    SignedAssertionData :=
  { licenseKey := l.license_key, deviceId := deviceHash,
    kioskName := l.kiosk_name,
    location := none,
    activatedAt := l.activated_at, expiresAt := l.expires_at,
    lastValidated := l.last_validated_at,
    graceExpiresAt := l.last_validated_at.map (· + gracePeriodMs) }

/-- Outcome of `POST /activate`. `success` covers both the fresh activation and
the idempotent re-activation (both respond 200 with a signed license);
`alreadyActivated` is the 403 "License already activated on another device"
(DeviceMismatch in the spec). -/
inductive ActivateResult where
  | badRequest
  | notFound
  | success (assertion : SignedAssertionData)
  | alreadyActivated
  | revoked (reason : Option String)
  | expired
  deriving Repr, DecidableEq

/-- Outcome of `POST /validate`. The `deviceMismatch`, `revoked`, `expired`
and `valid` responses are written in the source but are unreachable: each of
those branches evaluates a `logValidation` argument that references the
undeclared shorthand `deviceIdHash` (the local is `deviceHash`), throws
`ReferenceError`, and falls into the catch-all, `serverError`
(500 "Validation failed"). The constructors are kept so theorems can state
that the dead responses are never produced. -/
inductive ValidateResult where
  | badRequest
  | notFound
  | deviceMismatch
  | revoked (reason : Option String)
  | expired
  | valid (validatedAt : Nat) (expiresAt : Nat)
  | serverError
  deriving Repr, DecidableEq

/-- The body of the activate route after the license row has been read.
`license?` is the snapshot `db.getLicenseByKey` returned; the writes apply to
the store as it is when they execute. Splitting the read from the rest lets
interleaved executions be expressed exactly as the source allows them
(the route reads, then later writes, with no transaction around the pair). -/
def activateDecide (hash : String → String) (license? : Option License)
    (s : Store) (licenseKey deviceId : String) (now : Nat) :
    ActivateResult × Store :=
  match license? with
  | none =>
      (.notFound, logValidation s
        ⟨licenseKey, hash deviceId, "activation", false,
         some "License key not found"⟩)
  | some license =>
      if license.status == "active" && truthyStr license.device_id_hash then
        let deviceHash := hash deviceId
        if license.device_id_hash == some deviceHash then
          (.success (reActivationResponse license deviceHash), s)
        else
          (.alreadyActivated, logValidation s
            ⟨licenseKey, deviceHash, "activation", false,
             some "License already activated on another device"⟩)
      else if license.status == "revoked" then
        (.revoked license.revoke_reason, logValidation s
          ⟨licenseKey, hash deviceId, "activation", false,
           some "License has been revoked"⟩)
      else if license.expires_at < now then
        (.expired, logValidation s
          ⟨licenseKey, hash deviceId, "activation", false,
           some "License has expired"⟩)
      else
        let deviceHash := hash deviceId
        let s1 := activateLicense s licenseKey deviceHash now
        (.success (freshActivationResponse license deviceHash now),
         logValidation s1 ⟨licenseKey, deviceHash, "activation", true, none⟩)

/-- Route `POST /activate`: the full route, reading its own snapshot. -/
def activateHandler (hash : String → String) (s : Store)
    (licenseKey deviceId : String) (now : Nat) : ActivateResult × Store :=
  if licenseKey == "" || deviceId == "" then (.badRequest, s)
  else activateDecide hash (getLicenseByKey s licenseKey) s licenseKey deviceId now

/-- Route `POST /validate` as it actually executes. The not-found branch logs
with the explicit `deviceIdHash: hashDeviceId(deviceId)` and responds 404.
Every later branch — device mismatch, revoked, expired, and the success
path — builds its `logValidation` argument with the bare shorthand
`deviceIdHash`, a name never declared in the route (the local is
`deviceHash`): the object literal throws `ReferenceError` before the insert,
so no log row is written and the catch-all answers 500 "Validation failed".
On the success path this throw happens after `updateValidation` has already
committed, so `last_validated_at` is refreshed even though the caller gets
the 500 and the in-source success response is dead code. -/
def validateHandler (hash : String → String) (s : Store)
    (licenseKey deviceId : String) (now : Nat) : ValidateResult × Store :=
  if licenseKey == "" || deviceId == "" then (.badRequest, s)
  else match getLicenseByKey s licenseKey with
  | none =>
      (.notFound, logValidation s
        ⟨licenseKey, hash deviceId, "periodic", false,
         some "License key not found"⟩)
  | some license =>
      let deviceHash := hash deviceId
      if license.device_id_hash != some deviceHash then
        (.serverError, s)
      else if license.status == "revoked" then
        (.serverError, s)
      else if license.expires_at < now then
        (.serverError, s)
      else
        (.serverError, updateValidation s licenseKey now)

/-- Outcome of `POST /:licenseKey/revoke`. -/
inductive RevokeResult where
  | badRequest
  | notFound
  | ok
  deriving Repr, DecidableEq

/-- Route `POST /:licenseKey/revoke`: requires a reason, requires the license to
exist, then calls the unconditional `revokeLicense` update. -/
def revokeHandler (s : Store) (licenseKey reason : String) (now : Nat) :
    RevokeResult × Store :=
  if reason == "" then (.badRequest, s)
  else match getLicenseByKey s licenseKey with
  | none => (.notFound, s)
  | some _ => (.ok, revokeLicense s licenseKey reason now)

/-- Outcome of `POST /generate`. `serverError` is the catch-all 500 the route
returns when `createLicense` throws (e.g. on a UNIQUE violation). -/
inductive GenerateResult where
  | badRequest
  | ok (licenseKey : String)
  | serverError
  deriving Repr, DecidableEq

/-- Route `POST /generate` paired with the synchronous sqlite store: one call
to `generateLicenseKey` (its random output is the `newLicenseKey` argument
here), then a single insert. There is no collision check and no regeneration
loop; a unique-violation throw is caught and answered with the catch-all
500. -/
def generateHandler (s : Store) (kioskName newLicenseKey : String)
    (restaurant country region : Option String) (issuedAt expiresAt : Nat) :
    GenerateResult × Store :=
  if kioskName == "" then (.badRequest, s)
  else match createLicense s newLicenseKey kioskName restaurant country region
      issuedAt expiresAt with
  | none => (.serverError, s)
  | some s1 => (.ok newLicenseKey, s1)

/-- Route `POST /generate` paired as deployed: `server.js` wires the
asynchronous `database-pg` store, and the route invokes
`db.createLicense(licenseData)` without `await`, so a unique-violation
rejection of the returned promise is never observed by the handler — the
route always responds success with the drawn key, and on a collision the
store keeps the pre-existing row untouched. -/
def generateHandlerPg (s : Store) (kioskName newLicenseKey : String)
    (restaurant country region : Option String) (issuedAt expiresAt : Nat) :
    GenerateResult × Store :=
  if kioskName == "" then (.badRequest, s)
  else match createLicense s newLicenseKey kioskName restaurant country region
      issuedAt expiresAt with
  | none => (.ok newLicenseKey, s)
  | some s1 => (.ok newLicenseKey, s1)

/-- Two activate requests whose reads both happen before either write:
the interleaving the route admits because it reads the row and updates it in
two separate store operations with no guard on `status`. -/
def twoActivatesRacy (hash : String → String) (s : Store)
    (licenseKey dA dB : String) (now : Nat) :
    ActivateResult × ActivateResult × Store :=
  let snapA := getLicenseByKey s licenseKey
  let snapB := getLicenseByKey s licenseKey
  let resA := activateDecide hash snapA s licenseKey dA now
  let resB := activateDecide hash snapB resA.2 licenseKey dB now
  (resA.1, resB.1, resB.2)

/-- The activate route takes its no-log idempotent branch exactly when the
stored license is active with a truthy fingerprint equal to that of the caller. -/
def isIdempotentReactivation (hash : String → String) (s : Store)
    (licenseKey deviceId : String) : Bool :=
  match getLicenseByKey s licenseKey with
  | none => false
  | some license =>
      license.status == "active" && truthyStr license.device_id_hash &&
        license.device_id_hash == some (hash deviceId)

/-- Whether an activate outcome is the 200 success response. -/
def isSuccess : ActivateResult → Bool
  | .success _ => true
  | _ => false

/-- The signed license object carried by a success response, if any. -/
def assertionOf : ActivateResult → Option SignedAssertionData
  | .success a => some a
  | _ => none

/-! ### Store lemmas -/

/-- Lookup with `find?` commutes with updating, by key, the row it looks up, provided the
update keeps the key. -/
theorem find_update (ls : List License) (k : String) (f : License → License)
    (hf : ∀ l, (f l).license_key = l.license_key) :
    (ls.map fun l => if l.license_key == k then f l else l).find?
        (fun l => l.license_key == k)
      = (ls.find? fun l => l.license_key == k).map f := by
  rw [List.find?_map]
  have hp : ((fun l => l.license_key == k) ∘
      fun l => if l.license_key == k then f l else l)
      = fun l : License => l.license_key == k := by
    funext l
    by_cases h : l.license_key = k
    · simp [h, hf]
    · simp [h]
  rw [hp]
  cases hfind : ls.find? (fun l => l.license_key == k) with
  | none => rfl
  | some x =>
    have hx : x.license_key = k := by simpa using List.find?_some hfind
    simp [hx]

theorem getLicenseByKey_activateLicense (s : Store) (k dh : String) (now : Nat) :
    getLicenseByKey (activateLicense s k dh now) k
      = (getLicenseByKey s k).map fun l =>
          { l with device_id_hash := some dh, status := "active",
                   activated_at := some now, last_validated_at := some now,
                   updated_at := now } := by
  unfold getLicenseByKey activateLicense
  exact find_update _ _ _ (fun _ => rfl)

theorem getLicenseByKey_updateValidation (s : Store) (k : String) (now : Nat) :
    getLicenseByKey (updateValidation s k now) k
      = (getLicenseByKey s k).map fun l =>
          { l with last_validated_at := some now, updated_at := now } := by
  unfold getLicenseByKey updateValidation
  exact find_update _ _ _ (fun _ => rfl)

theorem getLicenseByKey_revokeLicense (s : Store) (k r : String) (now : Nat) :
    getLicenseByKey (revokeLicense s k r now) k
      = (getLicenseByKey s k).map fun l =>
          { l with status := "revoked", revoked_at := some now,
                   revoke_reason := some r, updated_at := now } := by
  unfold getLicenseByKey revokeLicense
  exact find_update _ _ _ (fun _ => rfl)

theorem getLicenseByKey_logValidation (s : Store) (e : ValidationLog)
    (k : String) : getLicenseByKey (logValidation s e) k = getLicenseByKey s k :=
  rfl

theorem logs_logValidation (s : Store) (e : ValidationLog) :
    (logValidation s e).validation_logs = s.validation_logs ++ [e] := rfl

theorem logs_activateLicense (s : Store) (k dh : String) (now : Nat) :
    (activateLicense s k dh now).validation_logs = s.validation_logs := rfl

theorem logs_updateValidation (s : Store) (k : String) (now : Nat) :
    (updateValidation s k now).validation_logs = s.validation_logs := rfl

/-! ### Concrete fixtures for witnesses and counterexamples -/

/-- A stand-in for `hashDeviceId` (SHA-256 hex digest in the source):
deterministic and injective on the inputs used below. -/
def wHash (s : String) : String := String.append "fp-" s

/-- A never-activated pending license. -/
def pendingLic : License :=
  { license_key := "K1", device_id_hash := none, kiosk_name := "kiosk-1",
    location_restaurant := some "r1", location_country := some "UK",
    location_region := some "south", status := "pending",
    issued_at := 0, expires_at := 1000, activated_at := none,
    last_validated_at := none, revoked_at := none, revoke_reason := none,
    updated_at := 0 }

/-- A one-license store with an empty audit log. -/
def oneLicStore (l : License) : Store :=
  { licenses := [l], validation_logs := [] }

/-- An active license bound to device `dev-A`, already past expiry at 2000. -/
def boundLic : License :=
  { license_key := "K2", device_id_hash := some (wHash "dev-A"),
    kiosk_name := "kiosk-2", location_restaurant := some "r2",
    location_country := some "UK", location_region := none,
    status := "active", issued_at := 0, expires_at := 1000,
    activated_at := some 10, last_validated_at := some 10,
    revoked_at := none, revoke_reason := none, updated_at := 10 }

/-! ### Claim C8 -/

/-- Claim C8 (code bug): the mismatch branch of the validate route was
written to answer 403 "Device ID mismatch", but its `logValidation` argument
references the undeclared `deviceIdHash` and throws first, so at the failing
input — a never-activated license (stored fingerprint null) validated by any
device — the code returns the catch-all 500, never DeviceMismatch, and
writes no log. The claim matches the evident intent (the dead 403 of the
branch itself); the call indeed never silently passes. -/
theorem validate_mismatch_reference_error :
    pendingLic.device_id_hash = none
    ∧ (validateHandler wHash (oneLicStore pendingLic) "K1" "dev-A" 5).1
        = .serverError
    ∧ (validateHandler wHash (oneLicStore pendingLic) "K1" "dev-A" 5).1
        ≠ .deviceMismatch
    ∧ (∀ v e, (validateHandler wHash (oneLicStore pendingLic)
        "K1" "dev-A" 5).1 ≠ .valid v e)
    ∧ (validateHandler wHash (oneLicStore pendingLic) "K1" "dev-A" 5).2
        = oneLicStore pendingLic := by
  refine ⟨by decide, by decide, by decide, ?_, by decide⟩
  intro v e hc
  have h : (validateHandler wHash (oneLicStore pendingLic)
      "K1" "dev-A" 5).1 = .serverError := by decide
  rw [h] at hc
  cases hc

/-! ### Claim C3 -/

/-- Claim C3 (code bug): at the failing input — the bound, non-revoked,
non-expired license `K2` validated by its own device at time 500 — the code
does refresh `last_validated_at` (the `updateValidation` write commits, and
status and fingerprint stay untouched), but it never returns the validity
window: the success-path `logValidation` argument references the undeclared
`deviceIdHash`, throws `ReferenceError`, and the route answers the catch-all
500 with no log written, leaving its own `valid`/`validatedAt`/`expiresAt`
response dead code. -/
theorem validate_success_reference_error :
    boundLic.device_id_hash = some (wHash "dev-A")
    ∧ boundLic.status ≠ "revoked" ∧ ¬ boundLic.expires_at < 500
    ∧ (validateHandler wHash (oneLicStore boundLic) "K2" "dev-A" 500).1
        = .serverError
    ∧ (∀ v e, (validateHandler wHash (oneLicStore boundLic)
        "K2" "dev-A" 500).1 ≠ .valid v e)
    ∧ getLicenseByKey (validateHandler wHash (oneLicStore boundLic)
        "K2" "dev-A" 500).2 "K2"
        = some { boundLic with
                  last_validated_at := some 500, updated_at := 500 }
    ∧ (validateHandler wHash (oneLicStore boundLic)
        "K2" "dev-A" 500).2.validation_logs.length = 0 := by
  refine ⟨by decide, by decide, by decide, by decide, ?_, by decide,
    by decide⟩
  intro v e hc
  have h : (validateHandler wHash (oneLicStore boundLic)
      "K2" "dev-A" 500).1 = .serverError := by decide
  rw [h] at hc
  cases hc

/-! ### Claim C4 -/

/-- Counterexample to C4: `boundLic` is expired at time 2000, yet a Validate
from the non-matching device `dev-B` does not fail with Expired — the
mismatch branch throws on the undeclared `deviceIdHash` and the route
answers the catch-all 500. The matching device `dev-A` fares no better: the
expired branch throws at its own log call, so that case also yields the 500
instead of Expired. -/
theorem validate_expired_counterexample :
    boundLic.expires_at < 2000
    ∧ (validateHandler wHash (oneLicStore boundLic) "K2" "dev-B" 2000).1
        = .serverError
    ∧ (validateHandler wHash (oneLicStore boundLic) "K2" "dev-B" 2000).1
        ≠ .expired
    ∧ (validateHandler wHash (oneLicStore boundLic) "K2" "dev-A" 2000).1
        = .serverError
    ∧ (validateHandler wHash (oneLicStore boundLic) "K2" "dev-A" 2000).1
        ≠ .expired := by decide

/-- Claim C4 (amended): a Validate call on an existing expired license always
fails — it never returns `valid` — but never with Expired either: whatever
the device match, every branch past the not-found check throws
`ReferenceError` on the undeclared `deviceIdHash` in its log call, and the
route answers the generic 500 "Validation failed". -/
theorem validate_expired_always_fails (hash : String → String) (s : Store)
    (k d : String) (now : Nat) (l : License)
    (hk : k ≠ "") (hd : d ≠ "")
    (hfind : getLicenseByKey s k = some l)
    (hexp : l.expires_at < now) :
    (validateHandler hash s k d now).1 = .serverError
    ∧ (∀ v e, (validateHandler hash s k d now).1 ≠ .valid v e)
    ∧ (validateHandler hash s k d now).1 ≠ .expired := by
  have hb : ¬((k == "" || d == "") = true) := by simp [hk, hd]
  have hmain : (validateHandler hash s k d now).1 = .serverError := by
    unfold validateHandler
    rw [if_neg hb, hfind]
    by_cases h1 : (l.device_id_hash != some (hash d)) = true
    · simp [h1]
    · by_cases h2 : (l.status == "revoked") = true
      · simp [h1, h2]
      · simp [h1, h2, hexp]
  refine ⟨hmain, ?_, ?_⟩
  · intro v e hc
    rw [hmain] at hc
    cases hc
  · rw [hmain]
    exact by decide

/-- Witness for the amended C4: the expired bound license at time 2000,
validated by its own device. -/
theorem validate_expired_always_fails_witness :
    ("K2" ≠ "" ∧ "dev-A" ≠ ""
      ∧ getLicenseByKey (oneLicStore boundLic) "K2" = some boundLic
      ∧ boundLic.expires_at < 2000)
    ∧ ((validateHandler wHash (oneLicStore boundLic) "K2" "dev-A" 2000).1
         = .serverError
       ∧ (∀ v e, (validateHandler wHash (oneLicStore boundLic)
           "K2" "dev-A" 2000).1 ≠ .valid v e)
       ∧ (validateHandler wHash (oneLicStore boundLic) "K2" "dev-A" 2000).1
           ≠ .expired) :=
  ⟨⟨by decide, by decide, by decide, by decide⟩,
   validate_expired_always_fails wHash (oneLicStore boundLic) "K2" "dev-A"
     2000 boundLic (by decide) (by decide) (by decide) (by decide)⟩

/-! ### Claim C2 -/

/-- Counterexample to C2: `boundLic` is expired at time 2000, yet an Activate
from its own bound device succeeds through the idempotent branch instead of
failing with Expired — the already-active check runs before the expiry
check. -/
theorem activate_expired_counterexample :
    boundLic.expires_at < 2000
    ∧ (activateHandler wHash (oneLicStore boundLic) "K2" "dev-A" 2000).1
        = .success (reActivationResponse boundLic (wHash "dev-A"))
    ∧ (activateHandler wHash (oneLicStore boundLic) "K2" "dev-A" 2000).1
        ≠ .expired := by decide

/-- Claim C2 (amended): Activate on an expired license fails with Expired only
when the license is not already active with a non-empty stored fingerprint:
the already-active branch runs first, so on an expired active license the
bound device still succeeds idempotently and any other device gets the
already-activated (DeviceMismatch) error rather than Expired. -/
theorem activate_expired_order (hash : String → String) (s : Store)
    (k d : String) (now : Nat) (l : License) (H : String)
    (hk : k ≠ "") (hd : d ≠ "")
    (hfind : getLicenseByKey s k = some l)
    (hexp : l.expires_at < now) :
    (l.status = "active" → l.device_id_hash = some H → H ≠ "" → hash d = H →
       (activateHandler hash s k d now).1
         = .success (reActivationResponse l H))
    ∧ (l.status = "active" → l.device_id_hash = some H → H ≠ "" →
       hash d ≠ H → (activateHandler hash s k d now).1 = .alreadyActivated)
    ∧ (¬(l.status = "active" ∧ truthyStr l.device_id_hash = true) →
       l.status ≠ "revoked" →
       (activateHandler hash s k d now).1 = .expired) := by
  have hb : ¬((k == "" || d == "") = true) := by simp [hk, hd]
  refine ⟨?_, ?_, ?_⟩
  · intro ha hH hHne hmatch
    have hc1 : (l.status == "active" && truthyStr l.device_id_hash) = true := by
      simp [ha, hH, truthyStr, hHne]
    have hc2 : (l.device_id_hash == some (hash d)) = true := by
      simp [hH, hmatch]
    unfold activateHandler activateDecide
    rw [if_neg hb, hfind]
    simp [hc1, hc2, hmatch, hH, ha, truthyStr, hHne]
  · intro ha hH hHne hne
    have hc1 : (l.status == "active" && truthyStr l.device_id_hash) = true := by
      simp [ha, hH, truthyStr, hHne]
    have hc2 : (l.device_id_hash == some (hash d)) = false := by
      rw [hH, beq_eq_false_iff_ne]
      intro hc
      exact hne (Option.some.inj hc).symm
    unfold activateHandler activateDecide
    rw [if_neg hb, hfind]
    simp only [hH] at hc2
    simp [hc1, hc2, hH, ha, truthyStr, hHne]
  · intro h3 hrev
    have hc1 : (l.status == "active" && truthyStr l.device_id_hash)
        = false := by
      cases hcc : (l.status == "active" && truthyStr l.device_id_hash) with
      | false => rfl
      | true =>
        rw [Bool.and_eq_true, beq_iff_eq] at hcc
        exact absurd hcc h3
    have hr : (l.status == "revoked") = false := by simp [hrev]
    unfold activateHandler activateDecide
    rw [if_neg hb, hfind]
    simp [hc1, hr, hexp]

/-- Witness for the amended C2: the expired active license `K2` at time 2000,
with its bound fingerprint as the already-stored hash. -/
theorem activate_expired_order_witness :
    ("K2" ≠ "" ∧ "dev-A" ≠ ""
      ∧ getLicenseByKey (oneLicStore boundLic) "K2" = some boundLic
      ∧ boundLic.expires_at < 2000)
    ∧ ((boundLic.status = "active" →
         boundLic.device_id_hash = some (wHash "dev-A") →
         wHash "dev-A" ≠ "" → wHash "dev-A" = wHash "dev-A" →
         (activateHandler wHash (oneLicStore boundLic) "K2" "dev-A" 2000).1
           = .success (reActivationResponse boundLic (wHash "dev-A")))
       ∧ (boundLic.status = "active" →
           boundLic.device_id_hash = some (wHash "dev-A") →
           wHash "dev-A" ≠ "" → wHash "dev-A" ≠ wHash "dev-A" →
           (activateHandler wHash (oneLicStore boundLic) "K2" "dev-A" 2000).1
             = .alreadyActivated)
       ∧ (¬(boundLic.status = "active"
             ∧ truthyStr boundLic.device_id_hash = true) →
           boundLic.status ≠ "revoked" →
           (activateHandler wHash (oneLicStore boundLic) "K2" "dev-A" 2000).1
             = .expired)) :=
  ⟨⟨by decide, by decide, by decide, by decide⟩,
   activate_expired_order wHash (oneLicStore boundLic) "K2" "dev-A" 2000
     boundLic (wHash "dev-A") (by decide) (by decide) (by decide) (by decide)⟩

/-! ### Claim C5 -/

/-- Counterexample to C5: an Activate on the active license `K2` from its own
bound device takes the idempotent branch and writes no `validation_logs`
entry at all, so this attempt does not produce exactly one audit entry. -/
theorem audit_log_counterexample :
    isIdempotentReactivation wHash (oneLicStore boundLic) "K2" "dev-A" = true
    ∧ (activateHandler wHash (oneLicStore boundLic)
        "K2" "dev-A" 500).2.validation_logs.length
        = (oneLicStore boundLic).validation_logs.length
    ∧ (activateHandler wHash (oneLicStore boundLic)
        "K2" "dev-A" 500).2.validation_logs.length
        ≠ (oneLicStore boundLic).validation_logs.length + 1 := by decide

/-- Claim C5 (amended): every well-formed Activate attempt appends exactly
one `validation_logs` entry except the idempotent same-device re-activation
success, which appends none; a well-formed Validate attempt appends exactly
one entry only when the license key is not found — on every other branch
(mismatch, revoked, expired, and even the success path) the log call throws
on the undeclared `deviceIdHash` before the insert and appends nothing. -/
theorem audit_log_per_attempt (hash : String → String) (s : Store)
    (k d : String) (now : Nat) (hk : k ≠ "") (hd : d ≠ "") :
    ((getLicenseByKey s k).isNone →
      (validateHandler hash s k d now).2.validation_logs.length
        = s.validation_logs.length + 1)
    ∧ ((getLicenseByKey s k).isSome →
      (validateHandler hash s k d now).2.validation_logs.length
        = s.validation_logs.length)
    ∧ (isIdempotentReactivation hash s k d = false →
        (activateHandler hash s k d now).2.validation_logs.length
          = s.validation_logs.length + 1)
    ∧ (isIdempotentReactivation hash s k d = true →
        (activateHandler hash s k d now).2.validation_logs.length
          = s.validation_logs.length) := by
  have hb : ¬((k == "" || d == "") = true) := by simp [hk, hd]
  refine ⟨?_, ?_, ?_, ?_⟩
  · intro hnone
    unfold validateHandler
    rw [if_neg hb]
    cases hfind : getLicenseByKey s k with
    | none => simp [logValidation]
    | some l =>
      simp [hfind] at hnone
  · intro hsome
    unfold validateHandler
    rw [if_neg hb]
    cases hfind : getLicenseByKey s k with
    | none =>
      simp [hfind] at hsome
    | some l =>
      by_cases h1 : (l.device_id_hash != some (hash d)) = true
      · simp [h1]
      · by_cases h2 : (l.status == "revoked") = true
        · simp [h1, h2]
        · by_cases h3 : l.expires_at < now
          · simp [h1, h2, h3]
          · simp [h1, h2, h3, updateValidation]
  · intro hid
    simp only [isIdempotentReactivation] at hid
    unfold activateHandler activateDecide
    rw [if_neg hb]
    cases hfind : getLicenseByKey s k with
    | none => simp [logValidation]
    | some l =>
      simp only [hfind] at hid
      by_cases h1 : (l.status == "active" && truthyStr l.device_id_hash) = true
      · have h2 : (l.device_id_hash == some (hash d)) = false := by
          cases hc : (l.device_id_hash == some (hash d)) with
          | false => rfl
          | true =>
            rw [h1, hc] at hid
            simp at hid
        simp [h1, h2, logValidation]
      · by_cases h2 : (l.status == "revoked") = true
        · simp [h1, h2, logValidation]
        · by_cases h3 : l.expires_at < now
          · simp [h1, h2, h3, logValidation]
          · simp [h1, h2, h3, logValidation, activateLicense]
  · intro hid
    simp only [isIdempotentReactivation] at hid
    unfold activateHandler activateDecide
    rw [if_neg hb]
    cases hfind : getLicenseByKey s k with
    | none =>
      simp only [hfind] at hid
      cases hid
    | some l =>
      simp only [hfind] at hid
      rw [Bool.and_eq_true] at hid
      simp [hid.1, hid.2]

/-- Witness for the amended C5: the pending license `K1` validated and
activated by `dev-A` at time 5, a non-idempotent attempt. -/
theorem audit_log_per_attempt_witness :
    ("K1" ≠ "" ∧ "dev-A" ≠ "")
    ∧ (((getLicenseByKey (oneLicStore pendingLic) "K1").isNone →
         (validateHandler wHash (oneLicStore pendingLic)
           "K1" "dev-A" 5).2.validation_logs.length
           = (oneLicStore pendingLic).validation_logs.length + 1)
       ∧ ((getLicenseByKey (oneLicStore pendingLic) "K1").isSome →
          (validateHandler wHash (oneLicStore pendingLic)
            "K1" "dev-A" 5).2.validation_logs.length
            = (oneLicStore pendingLic).validation_logs.length)
       ∧ (isIdempotentReactivation wHash (oneLicStore pendingLic)
            "K1" "dev-A" = false →
          (activateHandler wHash (oneLicStore pendingLic)
            "K1" "dev-A" 5).2.validation_logs.length
            = (oneLicStore pendingLic).validation_logs.length + 1)
       ∧ (isIdempotentReactivation wHash (oneLicStore pendingLic)
            "K1" "dev-A" = true →
          (activateHandler wHash (oneLicStore pendingLic)
            "K1" "dev-A" 5).2.validation_logs.length
            = (oneLicStore pendingLic).validation_logs.length)) :=
  ⟨⟨by decide, by decide⟩,
   audit_log_per_attempt wHash (oneLicStore pendingLic) "K1" "dev-A" 5
     (by decide) (by decide)⟩

/-! ### Claim C6 -/

/-- Counterexample to C6: revoking `K1` with reason `r1` and then again with
reason `r2` overwrites the stored reason, and a later Activate reports
`Revoked` with `r2`, not the original `r1`. -/
theorem revoke_overwrite_counterexample :
    (getLicenseByKey ((revokeHandler
        ((revokeHandler (oneLicStore pendingLic) "K1" "r1" 10).2)
        "K1" "r2" 20).2) "K1").map (fun l => l.revoke_reason)
      = some (some "r2")
    ∧ (activateHandler wHash ((revokeHandler
        ((revokeHandler (oneLicStore pendingLic) "K1" "r1" 10).2)
        "K1" "r2" 20).2) "K1" "dev-A" 30).1 = .revoked (some "r2")
    ∧ (.revoked (some "r2") : ActivateResult) ≠ .revoked (some "r1") := by
  decide

/-- Claim C6 (amended): revoke is sticky as a status — after any revoke every
subsequent Activate fails `Revoked` carrying the currently stored reason,
and Validate from the bound device also fails, though with the generic 500
(its revoked branch throws on the undeclared `deviceIdHash` before
responding) — but a second revoke call is accepted and overwrites the stored
reason and `revoked_at`, so after `revoke(k, r1); revoke(k, r2)` the
reported reason is `r2`. -/
theorem revoke_overwrites_reason (hash : String → String) (s : Store)
    (k d r1 r2 : String) (now1 now2 now3 : Nat) (l : License)
    (hk : k ≠ "") (hd : d ≠ "") (hr1 : r1 ≠ "") (hr2 : r2 ≠ "")
    (hfind : getLicenseByKey s k = some l) :
    getLicenseByKey ((revokeHandler ((revokeHandler s k r1 now1).2)
        k r2 now2).2) k
      = some { l with
                status := "revoked", revoked_at := some now2,
                revoke_reason := some r2, updated_at := now2 }
    ∧ (activateHandler hash ((revokeHandler ((revokeHandler s k r1 now1).2)
        k r2 now2).2) k d now3).1 = .revoked (some r2)
    ∧ (l.device_id_hash = some (hash d) →
        (validateHandler hash ((revokeHandler ((revokeHandler s k r1 now1).2)
          k r2 now2).2) k d now3).1 = .serverError) := by
  have hb : ¬((k == "" || d == "") = true) := by simp [hk, hd]
  have h1 : (revokeHandler s k r1 now1).2 = revokeLicense s k r1 now1 := by
    unfold revokeHandler
    rw [if_neg (by simp [hr1]), hfind]
  have hf1 : getLicenseByKey (revokeLicense s k r1 now1) k
      = some { l with
                status := "revoked", revoked_at := some now1,
                revoke_reason := some r1, updated_at := now1 } := by
    rw [getLicenseByKey_revokeLicense, hfind]
    rfl
  have h2 : (revokeHandler (revokeLicense s k r1 now1) k r2 now2).2
      = revokeLicense (revokeLicense s k r1 now1) k r2 now2 := by
    unfold revokeHandler
    rw [if_neg (by simp [hr2]), hf1]
  have hf2 : getLicenseByKey
      (revokeLicense (revokeLicense s k r1 now1) k r2 now2) k
      = some { l with
                status := "revoked", revoked_at := some now2,
                revoke_reason := some r2, updated_at := now2 } := by
    rw [getLicenseByKey_revokeLicense, getLicenseByKey_revokeLicense, hfind]
    rfl
  rw [h1, h2]
  refine ⟨hf2, ?_, ?_⟩
  · unfold activateHandler activateDecide
    rw [if_neg hb, hf2]
    simp [truthyStr]
  · intro hdev
    unfold validateHandler
    rw [if_neg hb, hf2]
    simp [hdev]

/-- Witness for the amended C6: double revoke of the pending license `K1`. -/
theorem revoke_overwrites_reason_witness :
    ("K1" ≠ "" ∧ "dev-A" ≠ "" ∧ "r1" ≠ "" ∧ "r2" ≠ ""
      ∧ getLicenseByKey (oneLicStore pendingLic) "K1" = some pendingLic)
    ∧ (getLicenseByKey ((revokeHandler
         ((revokeHandler (oneLicStore pendingLic) "K1" "r1" 10).2)
         "K1" "r2" 20).2) "K1"
        = some { pendingLic with
                  status := "revoked", revoked_at := some 20,
                  revoke_reason := some "r2", updated_at := 20 }
       ∧ (activateHandler wHash ((revokeHandler
           ((revokeHandler (oneLicStore pendingLic) "K1" "r1" 10).2)
           "K1" "r2" 20).2) "K1" "dev-A" 30).1 = .revoked (some "r2")
       ∧ (pendingLic.device_id_hash = some (wHash "dev-A") →
           (validateHandler wHash ((revokeHandler
             ((revokeHandler (oneLicStore pendingLic) "K1" "r1" 10).2)
             "K1" "r2" 20).2) "K1" "dev-A" 30).1 = .serverError)) :=
  ⟨⟨by decide, by decide, by decide, by decide, by decide⟩,
   revoke_overwrites_reason wHash (oneLicStore pendingLic) "K1" "dev-A"
     "r1" "r2" 10 20 30 pendingLic (by decide) (by decide) (by decide)
     (by decide) (by decide)⟩

/-! ### Claim C7 -/

/-- Counterexample to C7: generating a license whose freshly drawn key
collides with an existing row regenerates nothing in either pairing. Under
the deployed pairing (`server.js` wires `database-pg` and the route does not
await `createLicense`) the route even reports success with the colliding key
while the store still holds the pre-existing license (kiosk-1, not the
requested kiosk-9); under the synchronous sqlite pairing the insert throws
and the route answers its catch-all error. In both, the store is unchanged. -/
theorem generate_collision_counterexample :
    (generateHandlerPg (oneLicStore pendingLic) "kiosk-9" "K1"
        none none none 0 100).1 = .ok "K1"
    ∧ (generateHandlerPg (oneLicStore pendingLic) "kiosk-9" "K1"
        none none none 0 100).2 = oneLicStore pendingLic
    ∧ (getLicenseByKey (generateHandlerPg (oneLicStore pendingLic) "kiosk-9"
        "K1" none none none 0 100).2 "K1").map (fun l => l.kiosk_name)
      = some "kiosk-1"
    ∧ (generateHandler (oneLicStore pendingLic) "kiosk-9" "K1"
        none none none 0 100).1 = .serverError
    ∧ (generateHandler (oneLicStore pendingLic) "kiosk-9" "K1"
        none none none 0 100).2 = oneLicStore pendingLic := by decide

/-- Claim C7 (amended): the route draws one key and performs a single insert
guarded only by the unique-key constraint of the store; there is no collision
check and no regeneration loop. Under the deployed pairing (async pg store,
`createLicense` not awaited) a collision is never observed and the route
answers success with the colliding key while the store keeps the pre-existing
row unchanged; under the synchronous sqlite pairing the insert throws and the
route answers its catch-all error, the store again unchanged. In neither case
is a new key regenerated, and the existing row is never overwritten; a new
pending row is stored only for a non-colliding key. -/
theorem generate_no_collision_retry (s : Store)
    (kioskName newKey : String) (restaurant country region : Option String)
    (issuedAt expiresAt : Nat) (hkn : kioskName ≠ "") :
    ((s.licenses.any fun x => x.license_key == newKey) = true →
       generateHandlerPg s kioskName newKey restaurant country region
         issuedAt expiresAt = (.ok newKey, s)
       ∧ generateHandler s kioskName newKey restaurant country region
           issuedAt expiresAt = (.serverError, s))
    ∧ ((s.licenses.any fun x => x.license_key == newKey) = false →
       (generateHandlerPg s kioskName newKey restaurant country region
          issuedAt expiresAt).1 = .ok newKey
       ∧ (generateHandlerPg s kioskName newKey restaurant country region
           issuedAt expiresAt).2.licenses
          = s.licenses ++
            [{ license_key := newKey, device_id_hash := none,
               kiosk_name := kioskName, location_restaurant := restaurant,
               location_country := country, location_region := region,
               status := "pending", issued_at := issuedAt,
               expires_at := expiresAt, activated_at := none,
               last_validated_at := none, revoked_at := none,
               revoke_reason := none, updated_at := issuedAt }]
       ∧ generateHandler s kioskName newKey restaurant country region
           issuedAt expiresAt
          = generateHandlerPg s kioskName newKey restaurant country region
              issuedAt expiresAt) := by
  have hb : ¬((kioskName == "") = true) := by simp [hkn]
  constructor
  · intro hcol
    unfold generateHandlerPg generateHandler createLicense
    rw [if_neg hb, if_neg hb]
    simp [hcol]
  · intro hfree
    unfold generateHandlerPg generateHandler createLicense
    rw [if_neg hb, if_neg hb]
    simp [hfree]

/-- Witness for the amended C7: issuing a fresh key `K9` against the
one-license store succeeds with a new pending row in both pairings. -/
theorem generate_no_collision_retry_witness :
    ("kiosk-9" ≠ "")
    ∧ ((((oneLicStore pendingLic).licenses.any
          fun x => x.license_key == "K9") = true →
        generateHandlerPg (oneLicStore pendingLic) "kiosk-9" "K9"
          none none none 0 100 = (.ok "K9", oneLicStore pendingLic)
        ∧ generateHandler (oneLicStore pendingLic) "kiosk-9" "K9"
            none none none 0 100 = (.serverError, oneLicStore pendingLic))
       ∧ ((((oneLicStore pendingLic).licenses.any
            fun x => x.license_key == "K9") = false →
          (generateHandlerPg (oneLicStore pendingLic) "kiosk-9" "K9"
             none none none 0 100).1 = .ok "K9"
          ∧ (generateHandlerPg (oneLicStore pendingLic) "kiosk-9" "K9"
              none none none 0 100).2.licenses
            = (oneLicStore pendingLic).licenses ++
              [{ license_key := "K9", device_id_hash := none,
                 kiosk_name := "kiosk-9", location_restaurant := none,
                 location_country := none, location_region := none,
                 status := "pending", issued_at := 0, expires_at := 100,
                 activated_at := none, last_validated_at := none,
                 revoked_at := none, revoke_reason := none,
                 updated_at := 0 }]
          ∧ generateHandler (oneLicStore pendingLic) "kiosk-9" "K9"
              none none none 0 100
            = generateHandlerPg (oneLicStore pendingLic) "kiosk-9" "K9"
                none none none 0 100))) :=
  ⟨by decide,
   generate_no_collision_retry (oneLicStore pendingLic) "kiosk-9" "K9"
     none none none 0 100 (by decide)⟩

/-! ### Claim C10 -/

/-- Counterexample to C10: the first activation of `K1` by `dev-A` returns an
assertion that includes the `location` field, but the idempotent
re-activation by the same device returns an assertion with no `location`
field — the two signed payloads do not have the same shape. -/
theorem reactivation_shape_counterexample :
    ((assertionOf (activateHandler wHash (oneLicStore pendingLic)
        "K1" "dev-A" 5).1).map (fun a => a.location.isSome) = some true)
    ∧ ((assertionOf (activateHandler wHash
        (activateHandler wHash (oneLicStore pendingLic) "K1" "dev-A" 5).2
        "K1" "dev-A" 6).1).map (fun a => a.location.isSome)
        = some false) := by decide

/-- Claim C10 (amended): the assertion signed on a first (pending → active)
activation carries a `location` object, while the assertion signed on the
idempotent same-device re-activation omits the `location` field entirely, so
the two signatures are computed over different shapes. -/
theorem activation_assertion_location (hash : String → String) (s : Store)
    (k d : String) (now : Nat) (l : License)
    (hk : k ≠ "") (hd : d ≠ "")
    (hfind : getLicenseByKey s k = some l) :
    (l.status = "pending" → ¬ l.expires_at < now →
       (activateHandler hash s k d now).1
         = .success (freshActivationResponse l (hash d) now)
       ∧ (freshActivationResponse l (hash d) now).location.isSome = true)
    ∧ (l.status = "active" → l.device_id_hash = some (hash d) →
       hash d ≠ "" →
       (activateHandler hash s k d now).1
         = .success (reActivationResponse l (hash d))
       ∧ (reActivationResponse l (hash d)).location.isSome = false) := by
  have hb : ¬((k == "" || d == "") = true) := by simp [hk, hd]
  constructor
  · intro hp hexp
    have hc1 : (l.status == "active" && truthyStr l.device_id_hash)
        = false := by simp [hp]
    have hr : (l.status == "revoked") = false := by simp [hp]
    refine ⟨?_, rfl⟩
    unfold activateHandler activateDecide
    rw [if_neg hb, hfind]
    simp [hc1, hr, hexp, hp]
  · intro ha hdev hne
    have hc2 : (l.device_id_hash == some (hash d)) = true := by simp [hdev]
    refine ⟨?_, rfl⟩
    unfold activateHandler activateDecide
    rw [if_neg hb, hfind]
    simp [hc2, ha, hdev, truthyStr, hne]

/-- Witness for the amended C10: both shapes exercised on `K1` (pending, then
the bound active copy of it). -/
theorem activation_assertion_location_witness :
    ("K1" ≠ "" ∧ "dev-A" ≠ ""
      ∧ getLicenseByKey (oneLicStore pendingLic) "K1" = some pendingLic)
    ∧ ((pendingLic.status = "pending" → ¬ pendingLic.expires_at < 5 →
        (activateHandler wHash (oneLicStore pendingLic) "K1" "dev-A" 5).1
          = .success (freshActivationResponse pendingLic (wHash "dev-A") 5)
        ∧ (freshActivationResponse pendingLic
            (wHash "dev-A") 5).location.isSome = true)
       ∧ (pendingLic.status = "active" →
          pendingLic.device_id_hash = some (wHash "dev-A") →
          wHash "dev-A" ≠ "" →
          (activateHandler wHash (oneLicStore pendingLic) "K1" "dev-A" 5).1
            = .success (reActivationResponse pendingLic (wHash "dev-A"))
          ∧ (reActivationResponse pendingLic
              (wHash "dev-A")).location.isSome = false)) :=
  ⟨⟨by decide, by decide, by decide⟩,
   activation_assertion_location wHash (oneLicStore pendingLic) "K1" "dev-A"
     5 pendingLic (by decide) (by decide) (by decide)⟩

/-! ### Claim C1 -/

/-- Counterexample to C1: the activate route reads the license and writes the
activation in two separate store operations, and the update it issues has no
condition on `status`. In the interleaving where both requests read the
pending row before either writes, both Activate calls succeed, and the
license ends up bound to the fingerprint of the later writer — refuting "exactly
one caller succeeds and the other fails with DeviceMismatch". -/
theorem activate_race_counterexample :
    pendingLic.status = "pending"
    ∧ isSuccess (twoActivatesRacy wHash (oneLicStore pendingLic)
        "K1" "dev-A" "dev-B" 5).1 = true
    ∧ isSuccess (twoActivatesRacy wHash (oneLicStore pendingLic)
        "K1" "dev-A" "dev-B" 5).2.1 = true
    ∧ (getLicenseByKey (twoActivatesRacy wHash (oneLicStore pendingLic)
        "K1" "dev-A" "dev-B" 5).2.2 "K1").map (fun l => l.device_id_hash)
      = some (some (wHash "dev-B")) := by decide

/-- Claim C1 (amended): the pending → active transition is an unconditional
update, not a conditional atomic operation. When the two Activate calls on
the same pending key run serially, exactly one succeeds and the loser takes
the already-active branch and fails with the device-mismatch error; but in
the interleaving where both calls read the row before either writes, both
succeed, the stored binding being that of the last writer. -/
theorem activate_pending_race (hash : String → String) (s : Store)
    (k dA dB : String) (now : Nat) (l : License)
    (hk : k ≠ "") (hA : dA ≠ "") (hB : dB ≠ "")
    (hfind : getLicenseByKey s k = some l)
    (hpend : l.status = "pending")
    (hexp : ¬ l.expires_at < now)
    (hAne : hash dA ≠ "")
    (hdiff : hash dA ≠ hash dB) :
    ((activateHandler hash s k dA now).1
       = .success (freshActivationResponse l (hash dA) now))
    ∧ ((activateHandler hash (activateHandler hash s k dA now).2 k dB now).1
       = .alreadyActivated)
    ∧ ((twoActivatesRacy hash s k dA dB now).1
       = .success (freshActivationResponse l (hash dA) now))
    ∧ ((twoActivatesRacy hash s k dA dB now).2.1
       = .success (freshActivationResponse l (hash dB) now)) := by
  have hbA : ¬((k == "" || dA == "") = true) := by simp [hk, hA]
  have hbB : ¬((k == "" || dB == "") = true) := by simp [hk, hB]
  have hc1 : (l.status == "active" && truthyStr l.device_id_hash)
      = false := by simp [hpend]
  have hr : (l.status == "revoked") = false := by simp [hpend]
  have hdec : ∀ s0 d0, activateDecide hash (some l) s0 k d0 now
      = (.success (freshActivationResponse l (hash d0) now),
         logValidation (activateLicense s0 k (hash d0) now)
           ⟨k, hash d0, "activation", true, none⟩) := by
    intro s0 d0
    unfold activateDecide
    simp [hc1, hr, hexp]
  have hmain1 : activateHandler hash s k dA now
      = (.success (freshActivationResponse l (hash dA) now),
         logValidation (activateLicense s k (hash dA) now)
           ⟨k, hash dA, "activation", true, none⟩) := by
    unfold activateHandler
    rw [if_neg hbA, hfind, hdec]
  have hf1 : getLicenseByKey (activateHandler hash s k dA now).2 k
      = some { l with
                device_id_hash := some (hash dA), status := "active",
                activated_at := some now, last_validated_at := some now,
                updated_at := now } := by
    rw [hmain1]
    show getLicenseByKey (logValidation (activateLicense s k (hash dA) now) _)
        k = _
    rw [getLicenseByKey_logValidation, getLicenseByKey_activateLicense, hfind]
    rfl
  have hne2 : ((some (hash dA) : Option String) == some (hash dB))
      = false := by
    rw [beq_eq_false_iff_ne]
    intro hc
    exact hdiff (Option.some.inj hc)
  refine ⟨by rw [hmain1], ?_, ?_, ?_⟩
  · generalize hgen : (activateHandler hash s k dA now).2 = s1 at hf1 ⊢
    unfold activateHandler activateDecide
    rw [if_neg hbB, hf1]
    simp [truthyStr, hAne, hne2]
  · simp only [twoActivatesRacy, hfind, hdec]
  · simp only [twoActivatesRacy, hfind, hdec]

/-- Witness for the amended C1: two devices racing for the pending license
`K1` at time 5. -/
theorem activate_pending_race_witness :
    ("K1" ≠ "" ∧ "dev-A" ≠ "" ∧ "dev-B" ≠ ""
      ∧ getLicenseByKey (oneLicStore pendingLic) "K1" = some pendingLic
      ∧ pendingLic.status = "pending" ∧ ¬ pendingLic.expires_at < 5
      ∧ wHash "dev-A" ≠ "" ∧ wHash "dev-A" ≠ wHash "dev-B")
    ∧ (((activateHandler wHash (oneLicStore pendingLic) "K1" "dev-A" 5).1
         = .success (freshActivationResponse pendingLic (wHash "dev-A") 5))
       ∧ ((activateHandler wHash
            (activateHandler wHash (oneLicStore pendingLic)
              "K1" "dev-A" 5).2 "K1" "dev-B" 5).1 = .alreadyActivated)
       ∧ ((twoActivatesRacy wHash (oneLicStore pendingLic)
            "K1" "dev-A" "dev-B" 5).1
           = .success (freshActivationResponse pendingLic (wHash "dev-A") 5))
       ∧ ((twoActivatesRacy wHash (oneLicStore pendingLic)
            "K1" "dev-A" "dev-B" 5).2.1
           = .success (freshActivationResponse pendingLic
               (wHash "dev-B") 5))) :=
  ⟨⟨by decide, by decide, by decide, by decide, by decide, by decide,
    by decide, by decide⟩,
   activate_pending_race wHash (oneLicStore pendingLic) "K1" "dev-A" "dev-B"
     5 pendingLic (by decide) (by decide) (by decide) (by decide) (by decide)
     (by decide) (by decide) (by decide)⟩

/-! ### Claim C9

The signing helpers delegate to the RSA-SHA256 primitive of the platform
(`crypto.createSign` / `crypto.createVerify`). The primitive is abstracted as
a `SigPrimitive`; its raw verify may throw, which `Except` models. What the
repository code adds — and what is proved unconditionally below — is the
try/catch that turns every primitive exception into `false`. The standard
signature-scheme facts about the RSA primitive (round-trip accepts; a
corrupted signature or message is rejected or throws) enter as hypotheses at
the points where they are used. -/

/-- The platform signature primitive: `sign(message, privateKey)` and a raw
`verify(message, signature, publicKey)` that may throw on malformed input. -/
structure SigPrimitive where
  sign : String → String → String
  verify : String → String → String → Except String Bool

/-- Source `signLicense(licenseData, privateKey)`: sign the canonical serialization
of the license data (the serialized assertion is the `String` here). -/
def signLicense (P : SigPrimitive) (licenseData privateKey : String) :
    String :=
  P.sign licenseData privateKey

/-- Source `verifyLicenseSignature(licenseData, signature, publicKey)`: the raw
verify wrapped in try/catch, so any exception yields `false`. -/
def verifyLicenseSignature (P : SigPrimitive)
    (licenseData signature publicKey : String) : Bool :=
  match P.verify licenseData signature publicKey with
  | Except.ok b => b
  | Except.error _ => false

/-- Claim C9: with a public key matching the signing private key, verify of a
signed assertion is `true`; verify of a corrupted signature or corrupted
assertion is `false`; and verifying never throws — whenever the raw
primitive throws, the wrapper returns `false`. -/
theorem sign_verify_roundtrip (P : SigPrimitive)
    (privateKey publicKey m m2 sig : String)
    (hround : P.verify m (P.sign m privateKey) publicKey = Except.ok true)
    (hbadsig : sig ≠ P.sign m privateKey →
      P.verify m sig publicKey = Except.ok false
      ∨ ∃ e, P.verify m sig publicKey = Except.error e)
    (hbadmsg : m2 ≠ m →
      P.verify m2 (P.sign m privateKey) publicKey = Except.ok false
      ∨ ∃ e, P.verify m2 (P.sign m privateKey) publicKey = Except.error e) :
    verifyLicenseSignature P m (signLicense P m privateKey) publicKey = true
    ∧ (sig ≠ signLicense P m privateKey →
        verifyLicenseSignature P m sig publicKey = false)
    ∧ (m2 ≠ m →
        verifyLicenseSignature P m2 (signLicense P m privateKey) publicKey
          = false)
    ∧ (∀ a b c e, P.verify a b c = Except.error e →
        verifyLicenseSignature P a b c = false) := by
  refine ⟨?_, ?_, ?_, ?_⟩
  · unfold verifyLicenseSignature signLicense
    rw [hround]
  · intro hne
    rcases hbadsig hne with h | ⟨e, h⟩ <;>
      · unfold verifyLicenseSignature
        rw [h]
  · intro hne
    rcases hbadmsg hne with h | ⟨e, h⟩ <;>
      · unfold verifyLicenseSignature signLicense
        rw [h]
  · intro a b c e h
    unfold verifyLicenseSignature
    rw [h]

/-- A toy concrete instantiation of the primitive for the witness: sign is
message-and-key concatenation and verify recomputes it for public key `pk`
(matching private key `sk`), throwing on any other public key. -/
def toyPrim : SigPrimitive :=
  { sign := fun m k => String.append (String.append m "|") k,
    verify := fun m sg k =>
      if k == "pk" then
        Except.ok (sg == String.append (String.append m "|") "sk")
      else Except.error "unsupported key" }

/-- Witness for C9: the toy primitive with message `a`, corrupted message `b`
and corrupted signature `zz`. -/
theorem sign_verify_roundtrip_witness :
    (toyPrim.verify "a" (toyPrim.sign "a" "sk") "pk" = Except.ok true
      ∧ ("zz" ≠ toyPrim.sign "a" "sk" →
        toyPrim.verify "a" "zz" "pk" = Except.ok false
        ∨ ∃ e, toyPrim.verify "a" "zz" "pk" = Except.error e)
      ∧ ("b" ≠ "a" →
        toyPrim.verify "b" (toyPrim.sign "a" "sk") "pk" = Except.ok false
        ∨ ∃ e, toyPrim.verify "b" (toyPrim.sign "a" "sk") "pk"
            = Except.error e))
    ∧ (verifyLicenseSignature toyPrim "a" (signLicense toyPrim "a" "sk") "pk"
        = true
       ∧ ("zz" ≠ signLicense toyPrim "a" "sk" →
          verifyLicenseSignature toyPrim "a" "zz" "pk" = false)
       ∧ ("b" ≠ "a" →
          verifyLicenseSignature toyPrim "b" (signLicense toyPrim "a" "sk")
            "pk" = false)
       ∧ (∀ a b c e, toyPrim.verify a b c = Except.error e →
          verifyLicenseSignature toyPrim a b c = false)) :=
  ⟨⟨by rfl, fun _ => Or.inl (by rfl), fun _ => Or.inl (by rfl)⟩,
   sign_verify_roundtrip toyPrim "sk" "pk" "a" "b" "zz" (by rfl)
     (fun _ => Or.inl (by rfl)) (fun _ => Or.inl (by rfl))⟩

end LicenseServer
